import Mathlib

/-!
Shallow embedding of the job lifecycle and provider-fallback orchestration of
the BackendTTC repository.

Primary source: src/railway/server.js, first server variant (lines 1-487):
the POST /api/tts handler (lines 145-237), processOnnxTTS (lines 240-357),
fallbackToGoogleTTS (lines 360-415) and GET /api/job/:jobId (lines 463-469).
The janitor sweep and its GET handler are embedded from src/unnamed/part_002
(lines 509-527 and 241-249).

Modelling conventions:
- The in-memory Map of jobs (line 31) is an association list with
  Map insertion-order semantics.
- Job records are Lean structures; absent JS fields are Option none.
- Timestamps are epoch milliseconds as Nat (Int where JS subtraction of the
  staleness threshold could go below zero).
- Node runs handlers on a single thread.  A job record is only observable by
  other code (pollers, the response serializer) at event-loop turn boundaries,
  that is at genuine awaits of the processing functions.  Traces therefore
  list the job record value at each turn boundary; each trace element is the
  composition of the assignment statements the source executes inside one
  synchronous segment, annotated with the source lines.
- External effects (ONNX runtime, model files, fetch, the filesystem) are
  out-of-scope collaborators per the spec; their success or failure at each
  throw and await site of the source is an explicit parameter enumerating the
  sites.
-/

/-- The status strings assigned to job.status in server.js. -/
inductive Status where
  | queued
  | processing
  | loading_model
  | generating_audio
  | finalizing
  | completed
  | failed
deriving DecidableEq

/-- The job record created at server.js lines 194-203 and mutated in place by
processOnnxTTS and fallbackToGoogleTTS.  The purely diagnostic fields
modelStatus and onnxSupport (snapshots of directory listings) are outside the
spec scope and carry no lifecycle information, so they are not modelled. -/
structure Job where
  id : String
  text : String
  voice : String
  status : Status
  progress : Nat
  createdAt : Nat
  completedAt : Option Nat
  audioUrl : Option String
  audioPath : Option String
  error : Option String
  ttsProvider : Option String
  modelUsed : Option String
deriving DecidableEq

/-- The jobs Map (server.js line 31), keyed by job id, in insertion order. -/
abbrev JobStore := List (String × Job)

/-- jobs.get(jobId): first entry with the given key. -/
def storeGet : JobStore → String → Option Job
  | [], _ => none
  | (k, j) :: rest, jobId => if k == jobId then some j else storeGet rest jobId

/-- jobs.set(jobId, j): replace in place, or append when the key is new. -/
def storeSet : JobStore → String → Job → JobStore
  | [], jobId, j => [(jobId, j)]
  | (k, j0) :: rest, jobId, j =>
      if k == jobId then (jobId, j) :: rest else (k, j0) :: storeSet rest jobId j

/-- The job literal stored at server.js lines 194-205: status queued,
progress 0, creation timestamp, every other field still absent. -/
def mkJob (id text voice : String) (createdAt : Nat) : Job :=
  { id := id
    text := text
    voice := voice
    status := Status.queued
    progress := 0
    createdAt := createdAt
    completedAt := none
    audioUrl := none
    audioPath := none
    error := none
    ttsProvider := none
    modelUsed := none }

/-- server.js line 215: job.ttsProvider assigned before the primary attempt. -/
def setProviderOnnx (j : Job) : Job :=
  { j with ttsProvider := some ("ONNX Local Models") }

/-- server.js line 222: job.ttsProvider assigned before a direct fallback
dispatch. -/
def setProviderFb (j : Job) : Job :=
  { j with ttsProvider := some ("Google TTS (fallback)") }

/-- processOnnxTTS lines 247-248, the state left behind when the throw at
line 251 fires (ONNX runtime object missing). -/
def onnxStopRuntimeMissing (j : Job) : Job :=
  let j := { j with status := Status.processing }  -- line 247
  { j with progress := 10 }                        -- line 248

/-- processOnnxTTS lines 247-255, the state left behind when model-file
listing, the missing .onnx check or config parsing throws (lines 258-277). -/
def onnxStopModelLoad (j : Job) : Job :=
  let j := onnxStopRuntimeMissing j
  let j := { j with progress := 20 }               -- line 254
  { j with status := Status.loading_model }        -- line 255

/-- processOnnxTTS synchronous segment from entry to the first genuine await
(InferenceSession.create, line 283): lines 247-279 when nothing throws. -/
def onnxSegToCreate (j : Job) : Job :=
  let j := onnxStopModelLoad j
  { j with progress := 40 }                        -- line 279

/-- processOnnxTTS segment from create resolving to the await of session.run
(line 306): lines 289-296. -/
def onnxSegAfterCreate (j : Job) : Job :=
  let j := { j with progress := 60 }               -- line 289
  let j := { j with status := Status.generating_audio }  -- line 290
  { j with progress := 80 }                        -- line 296

/-- processOnnxTTS lines 308-309, executed after session.run resolves.
saveAsWav (awaited at line 325) contains no internal await, so the segment
from run resolving to completion is one event-loop turn; this intermediate
composition is the state at the throw sites of lines 316 and 459. -/
def onnxSegAfterRun (j : Job) : Job :=
  let j := { j with progress := 90 }               -- line 308
  { j with status := Status.finalizing }           -- line 309

/-- Parameters produced by a successful primary attempt: completion
timestamp, audio URL, audio path, model filename. -/
structure OnnxDone where
  now : Nat
  url : String
  path : String
  model : String

/-- processOnnxTTS completion block, lines 330-336. -/
def onnxComplete (po : OnnxDone) (j : Job) : Job :=
  let j := { j with status := Status.completed }   -- line 330
  let j := { j with progress := 100 }              -- line 331
  let j := { j with audioUrl := some po.url }      -- line 332
  let j := { j with audioPath := some po.path }    -- line 333
  let j := { j with completedAt := some po.now }   -- line 334
  let j := { j with modelUsed := some po.model }   -- line 335
  { j with ttsProvider := some ("ONNX Local Models (success)") }  -- line 336

/-- fallbackToGoogleTTS synchronous segment from entry to the await of fetch
(line 376): lines 367-369.  No throw site precedes it. -/
def fbSeg1 (j : Job) : Job :=
  let j := { j with status := Status.generating_audio }  -- line 367
  let j := { j with progress := 60 }                     -- line 368
  { j with ttsProvider := some ("Google TTS (fallback)") }  -- line 369

/-- Parameters produced by a successful fallback attempt. -/
structure FbDone where
  now : Nat
  url : String
  path : String

/-- fallbackToGoogleTTS completion block, lines 392-396. -/
def fbComplete (pf : FbDone) (j : Job) : Job :=
  let j := { j with status := Status.completed }   -- line 392
  let j := { j with progress := 100 }              -- line 393
  let j := { j with audioUrl := some pf.url }      -- line 394
  let j := { j with audioPath := some pf.path }    -- line 395
  { j with completedAt := some pf.now }            -- line 396

/-- fallbackToGoogleTTS catch block, lines 412-413.  Note: completedAt is not
assigned here. -/
def fbFail (msg : String) (j : Job) : Job :=
  let j := { j with status := Status.failed }            -- line 412
  { j with error := some ("TTS failed: " ++ msg) }       -- line 413

/-- The throw and rejection sites of processOnnxTTS, in source order. -/
inductive OnnxFailure where
  | runtimeMissing   -- throw at line 251
  | modelLoad        -- throw inside lines 258-277
  | sessionCreate    -- await at line 283 rejects
  | inferenceRun     -- await at line 306 rejects
  | noAudioOutput    -- throw at line 316
  | saveWav          -- writeFileSync at line 459 throws, via the await at 325
deriving DecidableEq

/-- Outcome of the fallback attempt: the fetch/response/write chain of lines
376-387 either succeeds or throws with a message. -/
inductive FbOutcome where
  | success
  | failure (msg : String)

/-- The job record value at which a failing primary attempt stops. -/
def onnxFailStop : OnnxFailure → Job → Job
  | OnnxFailure.runtimeMissing => onnxStopRuntimeMissing
  | OnnxFailure.modelLoad => onnxStopModelLoad
  | OnnxFailure.sessionCreate => onnxSegToCreate
  | OnnxFailure.inferenceRun => fun j => onnxSegAfterCreate (onnxSegToCreate j)
  | OnnxFailure.noAudioOutput =>
      fun j => onnxSegAfterRun (onnxSegAfterCreate (onnxSegToCreate j))
  | OnnxFailure.saveWav =>
      fun j => onnxSegAfterRun (onnxSegAfterCreate (onnxSegToCreate j))

/-- The job record values observable at await boundaries that a failing
primary attempt reaches before its failure.  A synchronous throw (first two
cases) reaches none; a promise rejection settles in the same turn as the
catch at line 216, which immediately runs the synchronous segment of the
fallback, so the stop state itself is never a turn-boundary state. -/
def onnxAwaitStates : OnnxFailure → Job → List Job
  | OnnxFailure.runtimeMissing, _ => []
  | OnnxFailure.modelLoad, _ => []
  | OnnxFailure.sessionCreate, j => [onnxSegToCreate j]
  | OnnxFailure.inferenceRun, j =>
      [onnxSegToCreate j, onnxSegAfterCreate (onnxSegToCreate j)]
  | OnnxFailure.noAudioOutput, j =>
      [onnxSegToCreate j, onnxSegAfterCreate (onnxSegToCreate j)]
  | OnnxFailure.saveWav, j =>
      [onnxSegToCreate j, onnxSegAfterCreate (onnxSegToCreate j)]

/-- States the fallback attempt appends after its (generating_audio, 60)
turn-boundary state: the completion block or the catch block. -/
def fbTail (pf : FbDone) (fb : FbOutcome) (j : Job) : List Job :=
  match fb with
  | FbOutcome.success => [fbComplete pf j]
  | FbOutcome.failure msg => [fbFail msg j]

/-- The three ways the dispatch at server.js lines 213-224 can unfold for one
job: the primary attempt succeeds, the primary attempt fails at one of its
sites and the catch at line 216 runs the fallback, or the job is dispatched
directly to the fallback (line 223) because ONNX or the models are
unavailable. -/
inductive RunFlow where
  | primarySuccess
  | primaryFail (f : OnnxFailure) (fb : FbOutcome)
  | directFallback (fb : FbOutcome)

/-- The sequence of job record values at event-loop turn boundaries, from
creation to the terminal state, for one dispatched job. -/
def scenarioTrace (po : OnnxDone) (pf : FbDone) (s : RunFlow) (j0 : Job) : List Job :=
  match s with
  | RunFlow.primarySuccess =>
      let j1 := setProviderOnnx j0
      let a := onnxSegToCreate j1
      let b := onnxSegAfterCreate a
      [j0, a, b, onnxComplete po (onnxSegAfterRun b)]
  | RunFlow.primaryFail f fb =>
      let j1 := setProviderOnnx j0
      let g := fbSeg1 (onnxFailStop f j1)
      [j0] ++ onnxAwaitStates f j1 ++ [g] ++ fbTail pf fb g
  | RunFlow.directFallback fb =>
      let j1 := setProviderFb j0
      let g := fbSeg1 j1
      [j0, g] ++ fbTail pf fb g

/-- Trace of a job created by the POST handler with the given request data. -/
def traceOf (po : OnnxDone) (pf : FbDone) (s : RunFlow)
    (id text voice : String) (createdAt : Nat) : List Job :=
  scenarioTrace po pf s (mkJob id text voice createdAt)

/-- The terminal record of a trace. -/
def finalJob (po : OnnxDone) (pf : FbDone) (s : RunFlow)
    (id text voice : String) (createdAt : Nat) : Job :=
  (traceOf po pf s id text voice createdAt).getLastD (mkJob id text voice createdAt)

/-- Where the synchronous prefix of processOnnxTTS stops within the turn of
the POST handler itself: a synchronous throw at line 251, a synchronous throw
inside lines 258-277, or the first await at line 283.  The response at lines
226-236 is serialized at this moment, before any promise callback runs. -/
inductive OnnxSyncStop where
  | runtimeMissing
  | modelLoad
  | reachedAwait

/-- The job record value at the moment the POST handler serializes its
response, on the primary dispatch path. -/
def onnxSyncStopState : OnnxSyncStop → Job → Job
  | OnnxSyncStop.runtimeMissing => onnxStopRuntimeMissing
  | OnnxSyncStop.modelLoad => onnxStopModelLoad
  | OnnxSyncStop.reachedAwait => onnxSegToCreate

/-- Body of the JSON response of POST /api/tts, lines 226-236.  The
provider-decision echo of lines 230-234 restates the useOnnx inputs and is
not modelled separately. -/
structure TtsAccepted where
  message : String
  jobId : String
  status : Status
  estimated : String
deriving DecidableEq

/-- Result of POST /api/tts: a 400 rejection (lines 150-160) or the accepted
payload. -/
inductive TtsResult where
  | rejected (code : Nat) (error : String)
  | accepted (body : TtsAccepted)
deriving DecidableEq

/-- POST /api/tts handler, server.js lines 145-237.  Inputs: the request
text and voice, the dispatch decision useOnnx (line 209, conjunction of the
ONNX availability check and the model-directory check), where the primary
synchronous prefix stops, the generated job id (line 192) and the creation
timestamp.  Output: the response and the job store at response time.  The
response field status reads job.status (line 229) from the job object already
mutated in place by the synchronous prefix of the dispatched processing
function (lines 216 and 223 run before line 226; their first await or
rejection hands control back to the handler). -/
def postTts (text voice : String) (useOnnx : Bool) (stop : OnnxSyncStop)
    (jobId : String) (createdAt : Nat) (st : JobStore) : TtsResult × JobStore :=
  if text = "" then
    (TtsResult.rejected 400 ("Text is required"), st)            -- lines 150-152
  else if text.length > 500 then
    (TtsResult.rejected 400 ("Text is too long. Maximum 500 characters."), st)  -- lines 154-160
  else
    let job := mkJob jobId text voice createdAt                  -- lines 194-203
    let job :=
      if useOnnx then
        onnxSyncStopState stop (setProviderOnnx job)             -- lines 215-216
      else
        fbSeg1 (setProviderFb job)                               -- lines 222-223
    (TtsResult.accepted
      { message := "TTS job created"
        jobId := jobId
        status := job.status
        estimated := "10-30 sekunder" },
     storeSet st jobId job)                                      -- line 205

/-- processOnnxTTS as a store-level operation (lines 240-357): looks the job
up (line 241), returns unchanged when absent (line 242), otherwise runs to
completion or to its failure stop state.  Outputs: the store, the set of
audio files on disk, and whether the function rethrew (line 355). -/
def processOnnxTTSRun (st : JobStore) (files : List String) (jobId : String)
    (outcome : Option OnnxFailure) (po : OnnxDone) : JobStore × List String × Bool :=
  match storeGet st jobId with
  | none => (st, files, false)
  | some job =>
      match outcome with
      | none =>
          let final := onnxComplete po
            (onnxSegAfterRun (onnxSegAfterCreate (onnxSegToCreate job)))
          (storeSet st jobId final, po.path :: files, false)
      | some f => (storeSet st jobId (onnxFailStop f job), files, true)

/-- fallbackToGoogleTTS as a store-level operation (lines 360-415): looks the
job up (line 361), returns unchanged when absent (line 362), otherwise
completes or fails; the catch at line 410 never rethrows. -/
def fallbackToGoogleTTSRun (st : JobStore) (files : List String) (jobId : String)
    (fb : FbOutcome) (pf : FbDone) : JobStore × List String :=
  match storeGet st jobId with
  | none => (st, files)
  | some job =>
      let j1 := fbSeg1 job
      match fb with
      | FbOutcome.success => (storeSet st jobId (fbComplete pf j1), pf.path :: files)
      | FbOutcome.failure msg => (storeSet st jobId (fbFail msg j1), files)

/-- Reply of GET /api/job/:jobId, part_002 lines 241-249 (identical handler
at server.js lines 463-469): the job record, or a 404 with the fixed error
string. -/
inductive JobReply where
  | found (job : Job)
  | missing (code : Nat) (error : String)
deriving DecidableEq

/-- GET /api/job/:jobId handler. -/
def getJobHandler (st : JobStore) (jobId : String) : JobReply :=
  match storeGet st jobId with
  | none => JobReply.missing 404 ("Job not found")
  | some job => JobReply.found job

/-- Staleness test of the hourly sweep, part_002 line 514: the job creation
time is before now minus one hour (60 times 60 times 1000 ms). -/
def isExpired (nowMs : Int) (j : Job) : Bool :=
  (j.createdAt : Int) < nowMs - 3600000

/-- part_002 lines 515-522: unlink the audio file of an expired job when the
job has one and it exists; deletion errors are swallowed. -/
def unlinkAudioPath (j : Job) (files : List String) : List String :=
  match j.audioPath with
  | some p => files.filter (fun q => !(q == p))
  | none => files

/-- The hourly cleanup sweep, part_002 lines 510-527: for every stored job
older than one hour, delete its audio file and remove it from the store.
Returns the surviving store and the surviving audio files. -/
def cleanupSweep (nowMs : Int) : JobStore → List String → JobStore × List String
  | [], files => ([], files)
  | (jid, job) :: rest, files =>
      if isExpired nowMs job then
        cleanupSweep nowMs rest (unlinkAudioPath job files)
      else
        let r := cleanupSweep nowMs rest files
        ((jid, job) :: r.1, r.2)

/-- Number of adjacent descents in a list of progress values. -/
def descents : List Nat → Nat
  | a :: b :: rest => (if b < a then 1 else 0) + descents (b :: rest)
  | _ => 0

/-- Every adjacent descent in the list lands exactly at v. -/
def descentsOnlyTo (v : Nat) : List Nat → Bool
  | a :: b :: rest => (decide (a ≤ b) || (b == v)) && descentsOnlyTo v (b :: rest)
  | _ => true

/-- The C6 invariant on one job record: completed has the artifact reference
and no error, failed has an error and no artifact reference, every other
status has neither. -/
def jobInvariant (j : Job) : Bool :=
  match j.status with
  | Status.completed => j.audioUrl.isSome && (j.error == none)
  | Status.failed => j.error.isSome && (j.audioUrl == none)
  | _ => (j.audioUrl == none) && (j.error == none)

/-- completedAt bookkeeping as the code actually performs it: present exactly
on completed records, absent on failed records. -/
def completedAtConsistent (j : Job) : Bool :=
  ((!(j.status == Status.completed)) || j.completedAt.isSome) &&
  ((!(j.status == Status.failed)) || (j.completedAt == none))

/-- Status and progress of a record, the pair observed by pollers. -/
def statusProgress (j : Job) : Status × Nat := (j.status, j.progress)

theorem storeGet_none_of_not_key (st : JobStore) (jid : String)
    (h : ∀ kv ∈ st, kv.1 ≠ jid) : storeGet st jid = none := by
  induction st with
  | nil => rfl
  | cons kv rest ih =>
      obtain ⟨k, j⟩ := kv
      have hk : k ≠ jid := h (k, j) (List.mem_cons_self _ _)
      simp only [storeGet]
      rw [if_neg (by simp [hk])]
      exact ih (fun kv hkv => h kv (List.mem_cons_of_mem _ hkv))

theorem sweep_preserves_none (n : Int) (st : JobStore) :
    ∀ (files : List String) (jid : String), storeGet st jid = none →
    storeGet (cleanupSweep n st files).1 jid = none := by
  induction st with
  | nil => intro files jid _; rfl
  | cons kv rest ih =>
      obtain ⟨k, j⟩ := kv
      intro files jid h
      by_cases hk : (k == jid) = true
      · simp only [storeGet, if_pos hk] at h
        exact absurd h (by simp)
      · simp only [storeGet, if_neg hk] at h
        simp only [cleanupSweep]
        by_cases he : isExpired n j = true
        · rw [if_pos he]
          exact ih _ _ h
        · rw [if_neg he]
          simp only [storeGet, if_neg hk]
          exact ih _ _ h

theorem sweep_removes_expired (n : Int) (st : JobStore) :
    ∀ (files : List String) (jid : String) (job : Job),
    (st.map Prod.fst).Nodup → storeGet st jid = some job → isExpired n job = true →
    storeGet (cleanupSweep n st files).1 jid = none := by
  induction st with
  | nil => intro _ _ _ _ h _; exact absurd h (by simp [storeGet])
  | cons kv rest ih =>
      obtain ⟨k, j⟩ := kv
      intro files jid job hnd hget hexp
      have hnd2 : (rest.map Prod.fst).Nodup := (List.nodup_cons.mp hnd).2
      have hknotin : k ∉ rest.map Prod.fst := (List.nodup_cons.mp hnd).1
      by_cases hk : (k == jid) = true
      · have hkeq : k = jid := by simpa using hk
        simp only [storeGet, if_pos hk] at hget
        have hj : j = job := by injection hget
        subst hj
        subst hkeq
        simp only [cleanupSweep, if_pos hexp]
        apply sweep_preserves_none
        apply storeGet_none_of_not_key
        intro kv hkv hkey
        exact hknotin (by rw [← hkey]; exact List.mem_map_of_mem Prod.fst hkv)
      · simp only [storeGet, if_neg hk] at hget
        simp only [cleanupSweep]
        by_cases he : isExpired n j = true
        · rw [if_pos he]
          exact ih _ _ _ hnd2 hget hexp
        · rw [if_neg he]
          simp only [storeGet, if_neg hk]
          exact ih _ _ _ hnd2 hget hexp

theorem unlink_not_mem_self (j : Job) (files : List String) (p : String)
    (h : j.audioPath = some p) : p ∉ unlinkAudioPath j files := by
  simp only [unlinkAudioPath, h]
  intro hmem
  have := (List.mem_filter.mp hmem).2
  simp at this

theorem unlink_mono (j : Job) (files : List String) (p : String)
    (h : p ∉ files) : p ∉ unlinkAudioPath j files := by
  cases hap : j.audioPath with
  | none => simpa [unlinkAudioPath, hap] using h
  | some q =>
      simp only [unlinkAudioPath, hap]
      intro hmem
      exact h (List.mem_filter.mp hmem).1

theorem sweep_files_mono (n : Int) (st : JobStore) :
    ∀ (files : List String) (p : String), p ∉ files →
    p ∉ (cleanupSweep n st files).2 := by
  induction st with
  | nil => intro files p h; exact h
  | cons kv rest ih =>
      obtain ⟨k, j⟩ := kv
      intro files p h
      simp only [cleanupSweep]
      by_cases he : isExpired n j = true
      · rw [if_pos he]
        exact ih _ _ (unlink_mono j files p h)
      · rw [if_neg he]
        exact ih _ _ h

theorem sweep_deletes_artifact (n : Int) (st : JobStore) :
    ∀ (files : List String) (jid : String) (job : Job) (p : String),
    storeGet st jid = some job → isExpired n job = true → job.audioPath = some p →
    p ∉ (cleanupSweep n st files).2 := by
  induction st with
  | nil => intro _ _ _ _ h _ _; exact absurd h (by simp [storeGet])
  | cons kv rest ih =>
      obtain ⟨k, j⟩ := kv
      intro files jid job p hget hexp hap
      by_cases hk : (k == jid) = true
      · simp only [storeGet, if_pos hk] at hget
        have hj : j = job := by injection hget
        subst hj
        simp only [cleanupSweep, if_pos hexp]
        exact sweep_files_mono n rest _ p (unlink_not_mem_self j files p hap)
      · simp only [storeGet, if_neg hk] at hget
        simp only [cleanupSweep]
        by_cases he : isExpired n j = true
        · rw [if_pos he]
          exact ih _ _ _ _ hget hexp hap
        · rw [if_neg he]
          exact ih _ _ _ _ hget hexp hap

/-- C1: whenever the primary (ONNX) attempt fails at any of its throw or
rejection sites and the secondary (Google TTS fallback) attempt succeeds, the
job ends with status completed, its provider referencing the secondary
backend, and the fallback audio URL stored. -/
theorem job_fallback_success_completed (po : OnnxDone) (pf : FbDone) (f : OnnxFailure)
    (id text voice : String) (c : Nat) :
    (finalJob po pf (RunFlow.primaryFail f FbOutcome.success) id text voice c).status = Status.completed ∧
    (finalJob po pf (RunFlow.primaryFail f FbOutcome.success) id text voice c).ttsProvider = some ("Google TTS (fallback)") ∧
    (finalJob po pf (RunFlow.primaryFail f FbOutcome.success) id text voice c).audioUrl = some pf.url := by
  cases f <;> exact ⟨rfl, rfl, rfl⟩

/-- C2: whenever the primary attempt fails at any site and the fallback
attempt also fails, the job ends with terminal status failed and a non-empty
human-readable error string, and no state of the trace ever reaches
completed: the catch of fallbackToGoogleTTS is the last step, no further
fallback level exists. -/
theorem job_both_fail_failed (po : OnnxDone) (pf : FbDone) (f : OnnxFailure) (msg : String)
    (id text voice : String) (c : Nat) :
    (finalJob po pf (RunFlow.primaryFail f (FbOutcome.failure msg)) id text voice c).status = Status.failed ∧
    (∃ e, (finalJob po pf (RunFlow.primaryFail f (FbOutcome.failure msg)) id text voice c).error = some e ∧
      0 < e.length) ∧
    (traceOf po pf (RunFlow.primaryFail f (FbOutcome.failure msg)) id text voice c).all
      (fun j => !(j.status == Status.completed)) = true := by
  refine ⟨?_, ⟨"TTS failed: " ++ msg, ?_, ?_⟩, ?_⟩
  · cases f <;> rfl
  · cases f <;> rfl
  · rw [String.length_append]
    have h12 : ("TTS failed: ").length = 12 := rfl
    omega
  · cases f <;> rfl

/-- C3 counterexample: for an accepted request dispatched directly to the
fallback (ONNX unavailable), the response payload carries status
generating_audio, not queued, because fallbackToGoogleTTS runs synchronously
to its first await before the response is serialized. -/
theorem post_response_status_not_queued_cex :
    (postTts ("hei") ("default") false OnnxSyncStop.reachedAwait ("tts_1") 0 []).1 =
      TtsResult.accepted
        { message := "TTS job created", jobId := "tts_1",
          status := Status.generating_audio, estimated := "10-30 sekunder" } ∧
    Status.generating_audio ≠ Status.queued := by
  exact ⟨rfl, by decide⟩

/-- C3 amended: every accepted POST /api/tts response contains the new job id
and a status field equal to the status the job reached during the
synchronous prefix of its dispatched processing function: processing or
loading_model on the primary path, generating_audio on the fallback path,
and never queued. -/
theorem post_response_status_amended (text voice jobId : String) (createdAt : Nat)
    (useOnnx : Bool) (stop : OnnxSyncStop) (st : JobStore)
    (h1 : text ≠ "") (h2 : text.length ≤ 500) :
    ∃ a, (postTts text voice useOnnx stop jobId createdAt st).1 = TtsResult.accepted a ∧
      a.jobId = jobId ∧ a.status ≠ Status.queued ∧
      (a.status = Status.processing ∨ a.status = Status.loading_model ∨
        a.status = Status.generating_audio) := by
  unfold postTts
  rw [if_neg h1, if_neg (by omega)]
  cases useOnnx with
  | false => exact ⟨_, rfl, rfl, fun h => Status.noConfusion h, Or.inr (Or.inr rfl)⟩
  | true =>
      cases stop with
      | runtimeMissing => exact ⟨_, rfl, rfl, fun h => Status.noConfusion h, Or.inl rfl⟩
      | modelLoad => exact ⟨_, rfl, rfl, fun h => Status.noConfusion h, Or.inr (Or.inl rfl)⟩
      | reachedAwait => exact ⟨_, rfl, rfl, fun h => Status.noConfusion h, Or.inr (Or.inl rfl)⟩

/-- C3 amended, witness at a concrete accepted request. -/
theorem post_response_status_amended_witness :
    ∃ a, (postTts ("hei") ("default") false OnnxSyncStop.reachedAwait ("tts_1") 0 []).1 =
      TtsResult.accepted a ∧ a.jobId = "tts_1" ∧ a.status ≠ Status.queued ∧
      (a.status = Status.processing ∨ a.status = Status.loading_model ∨
        a.status = Status.generating_audio) :=
  post_response_status_amended ("hei") ("default") ("tts_1") 0 false
    OnnxSyncStop.reachedAwait [] (by decide) (by decide)

/-- C4: a request with empty or missing text, or text longer than 500
characters, is rejected with a 400 error and the job store is left unchanged
(no job is created); any other request, including one whose text has exactly
500 characters, is accepted and a job is stored under the fresh id. -/
theorem post_validation_boundary (text voice jobId : String) (createdAt : Nat)
    (useOnnx : Bool) (stop : OnnxSyncStop) (st : JobStore) :
    (text = "" →
      postTts text voice useOnnx stop jobId createdAt st =
        (TtsResult.rejected 400 ("Text is required"), st)) ∧
    (text.length > 500 →
      (postTts text voice useOnnx stop jobId createdAt st).2 = st ∧
      ∃ e, (postTts text voice useOnnx stop jobId createdAt st).1 = TtsResult.rejected 400 e) ∧
    (text ≠ "" → text.length ≤ 500 →
      ∃ a j, (postTts text voice useOnnx stop jobId createdAt st).1 = TtsResult.accepted a ∧
        a.jobId = jobId ∧
        (postTts text voice useOnnx stop jobId createdAt st).2 = storeSet st jobId j) := by
  refine ⟨?_, ?_, ?_⟩
  · intro h; simp [postTts, h]
  · intro h
    by_cases h0 : text = ""
    · subst h0; simp at h
    · unfold postTts
      rw [if_neg h0, if_pos h]
      exact ⟨rfl, _, rfl⟩
  · intro h1 h2
    unfold postTts
    rw [if_neg h1, if_neg (by omega)]
    exact ⟨_, _, rfl, rfl, rfl⟩

set_option maxRecDepth 8192 in
/-- C4 witness: the empty text is rejected with the store unchanged, a
501-character text is rejected with the store unchanged, and a text of
exactly 500 characters is accepted. -/
theorem post_validation_boundary_witness :
    (postTts ("") ("default") true OnnxSyncStop.reachedAwait ("j1") 0 [] =
      (TtsResult.rejected 400 ("Text is required"), ([] : JobStore))) ∧
    ((postTts (String.mk (List.replicate 501 ('a'))) ("default") true
        OnnxSyncStop.reachedAwait ("j1") 0 []).2 = ([] : JobStore) ∧
      ∃ e, (postTts (String.mk (List.replicate 501 ('a'))) ("default") true
        OnnxSyncStop.reachedAwait ("j1") 0 []).1 = TtsResult.rejected 400 e) ∧
    (∃ a j, (postTts (String.mk (List.replicate 500 ('a'))) ("default") true
        OnnxSyncStop.reachedAwait ("j1") 0 []).1 = TtsResult.accepted a ∧
      a.jobId = "j1" ∧
      (postTts (String.mk (List.replicate 500 ('a'))) ("default") true
        OnnxSyncStop.reachedAwait ("j1") 0 []).2 = storeSet [] ("j1") j) := by
  refine ⟨?_, ?_, ?_⟩
  · exact (post_validation_boundary ("") ("default") ("j1") 0 true
      OnnxSyncStop.reachedAwait []).1 rfl
  · exact (post_validation_boundary (String.mk (List.replicate 501 ('a'))) ("default") ("j1") 0 true
      OnnxSyncStop.reachedAwait []).2.1 (by decide)
  · exact (post_validation_boundary (String.mk (List.replicate 500 ('a'))) ("default") ("j1") 0 true
      OnnxSyncStop.reachedAwait []).2.2 (by decide) (by decide)

/-- C5: along every possible trace of a job, progress descends at most once
between adjacent observable states, every descent lands exactly at the
fallback starting value 60, and a trace without a fallback (primary success)
has no descent at all. -/
theorem progress_monotone_except_fallback_reset (po : OnnxDone) (pf : FbDone) (s : RunFlow)
    (id text voice : String) (c : Nat) :
    descents ((traceOf po pf s id text voice c).map Job.progress) ≤ 1 ∧
    descentsOnlyTo 60 ((traceOf po pf s id text voice c).map Job.progress) = true ∧
    descents ((traceOf po pf RunFlow.primarySuccess id text voice c).map Job.progress) = 0 := by
  cases s with
  | primarySuccess =>
      exact ⟨Nat.le_of_ble_eq_true rfl, rfl, rfl⟩
  | primaryFail f fb =>
      cases f <;> cases fb <;> exact ⟨Nat.le_of_ble_eq_true rfl, rfl, rfl⟩
  | directFallback fb =>
      cases fb <;> exact ⟨Nat.le_of_ble_eq_true rfl, rfl, rfl⟩

/-- C6: every observable state of every possible trace satisfies the
terminal-fields invariant: completed states carry an audio URL and no error,
failed states carry an error and no audio URL, non-terminal states carry
neither. -/
theorem terminal_fields_invariant (po : OnnxDone) (pf : FbDone) (s : RunFlow)
    (id text voice : String) (c : Nat) :
    (traceOf po pf s id text voice c).all jobInvariant = true := by
  cases s with
  | primarySuccess => rfl
  | primaryFail f fb => cases f <;> cases fb <;> rfl
  | directFallback fb => cases fb <;> rfl

/-- C7 counterexample: when the primary attempt fails and the fallback also
fails, the terminal failed record has no completedAt timestamp: the catch
block at server.js lines 412-413 sets only status and error. -/
theorem completedAt_missing_on_failure_cex :
    (finalJob { now := 0, url := "u", path := "p", model := "m" }
        { now := 0, url := "u2", path := "p2" }
        (RunFlow.primaryFail OnnxFailure.sessionCreate (FbOutcome.failure ("network error")))
        ("tts_1") ("hei") ("default") 0).status = Status.failed ∧
    (finalJob { now := 0, url := "u", path := "p", model := "m" }
        { now := 0, url := "u2", path := "p2" }
        (RunFlow.primaryFail OnnxFailure.sessionCreate (FbOutcome.failure ("network error")))
        ("tts_1") ("hei") ("default") 0).completedAt = none :=
  ⟨rfl, rfl⟩

/-- C7 amended: along every possible trace, completedAt is present exactly on
completed records and absent on failed records: the transition into completed
sets it, the transition into failed does not. -/
theorem completedAt_set_only_on_completed (po : OnnxDone) (pf : FbDone) (s : RunFlow)
    (id text voice : String) (c : Nat) :
    (traceOf po pf s id text voice c).all completedAtConsistent = true := by
  cases s with
  | primarySuccess => rfl
  | primaryFail f fb => cases f <;> cases fb <;> rfl
  | directFallback fb => cases fb <;> rfl

/-- C8: a stored job whose creation time is more than one hour before the
sweep time is removed from the store by the janitor sweep and its audio file
is deleted; a subsequent GET for its id answers 404 Job not found, and a GET
for any id absent from a store answers the same. -/
theorem janitor_sweep_removes_expired (n : Int) (st : JobStore) (files : List String)
    (jid : String) (job : Job)
    (hwf : (st.map Prod.fst).Nodup)
    (hget : storeGet st jid = some job)
    (hold : (job.createdAt : Int) < n - 3600000) :
    storeGet (cleanupSweep n st files).1 jid = none ∧
    getJobHandler (cleanupSweep n st files).1 jid = JobReply.missing 404 ("Job not found") ∧
    (∀ p, job.audioPath = some p → p ∉ (cleanupSweep n st files).2) ∧
    (∀ (st2 : JobStore) (jid2 : String), storeGet st2 jid2 = none →
      getJobHandler st2 jid2 = JobReply.missing 404 ("Job not found")) := by
  have hexp : isExpired n job = true := by simpa [isExpired] using hold
  have hnone := sweep_removes_expired n st files jid job hwf hget hexp
  refine ⟨hnone, ?_, ?_, ?_⟩
  · simp [getJobHandler, hnone]
  · intro p hap
    exact sweep_deletes_artifact n st files jid job p hget hexp hap
  · intro st2 jid2 h2
    simp [getJobHandler, h2]

/-- C8 witness: a store holding one completed job created at time 0 is swept
at time 4000000 ms; the job disappears, its audio file disappears, and GET
answers 404 for it and for a never-created id. -/
theorem janitor_sweep_removes_expired_witness :
    storeGet (cleanupSweep 4000000
      [(("tts_old"),
        fbComplete { now := 1000, url := "u", path := "/tmp/audio/a.mp3" }
          (fbSeg1 (setProviderFb (mkJob ("tts_old") ("hei") ("default") 0))))]
      ["/tmp/audio/a.mp3"]).1 ("tts_old") = none ∧
    getJobHandler (cleanupSweep 4000000
      [(("tts_old"),
        fbComplete { now := 1000, url := "u", path := "/tmp/audio/a.mp3" }
          (fbSeg1 (setProviderFb (mkJob ("tts_old") ("hei") ("default") 0))))]
      ["/tmp/audio/a.mp3"]).1 ("tts_old") = JobReply.missing 404 ("Job not found") ∧
    ("/tmp/audio/a.mp3") ∉ (cleanupSweep 4000000
      [(("tts_old"),
        fbComplete { now := 1000, url := "u", path := "/tmp/audio/a.mp3" }
          (fbSeg1 (setProviderFb (mkJob ("tts_old") ("hei") ("default") 0))))]
      ["/tmp/audio/a.mp3"]).2 ∧
    getJobHandler [] ("never_created") = JobReply.missing 404 ("Job not found") := by
  have h := janitor_sweep_removes_expired 4000000
    [(("tts_old"),
      fbComplete { now := 1000, url := "u", path := "/tmp/audio/a.mp3" }
        (fbSeg1 (setProviderFb (mkJob ("tts_old") ("hei") ("default") 0))))]
    ["/tmp/audio/a.mp3"] ("tts_old")
    (fbComplete { now := 1000, url := "u", path := "/tmp/audio/a.mp3" }
      (fbSeg1 (setProviderFb (mkJob ("tts_old") ("hei") ("default") 0))))
    (by simp) rfl (by decide)
  exact ⟨h.1, h.2.1, h.2.2.1 ("/tmp/audio/a.mp3") rfl, h.2.2.2 [] ("never_created") rfl⟩

/-- C9: calling either processing function with a job id absent from the
store is a no-op: the store and the audio files are unchanged and nothing is
rethrown. -/
theorem missing_job_processing_noop (st : JobStore) (files : List String) (jobId : String)
    (outcome : Option OnnxFailure) (po : OnnxDone) (fb : FbOutcome) (pf : FbDone)
    (h : storeGet st jobId = none) :
    processOnnxTTSRun st files jobId outcome po = (st, files, false) ∧
    fallbackToGoogleTTSRun st files jobId fb pf = (st, files) := by
  constructor
  · unfold processOnnxTTSRun; rw [h]
  · unfold fallbackToGoogleTTSRun; rw [h]

/-- C9 witness: both processing functions leave an empty store and empty file
set untouched for an unknown id. -/
theorem missing_job_processing_noop_witness :
    processOnnxTTSRun [] [] ("missing") none { now := 0, url := "u", path := "p", model := "m" } =
      (([] : JobStore), ([] : List String), false) ∧
    fallbackToGoogleTTSRun [] [] ("missing") FbOutcome.success { now := 0, url := "u", path := "p" } =
      (([] : JobStore), ([] : List String)) :=
  missing_job_processing_noop [] [] ("missing") none { now := 0, url := "u", path := "p", model := "m" }
    FbOutcome.success { now := 0, url := "u", path := "p" } rfl

/-- C10: a job dispatched directly to the fallback shows exactly the
observable states queued, then generating_audio at progress 60, then the
terminal state; it is never seen in processing, loading_model or
finalizing. -/
theorem direct_fallback_skips_intermediate_statuses (po : OnnxDone) (pf : FbDone)
    (fb : FbOutcome) (id text voice : String) (c : Nat) :
    ((traceOf po pf (RunFlow.directFallback fb) id text voice c).map statusProgress =
      [(Status.queued, 0), (Status.generating_audio, 60)] ++
        (match fb with
         | FbOutcome.success => [(Status.completed, 100)]
         | FbOutcome.failure _ => [(Status.failed, 60)])) ∧
    ((traceOf po pf (RunFlow.directFallback fb) id text voice c).all
      (fun j => !(j.status == Status.processing) && !(j.status == Status.loading_model)
        && !(j.status == Status.finalizing)) = true) := by
  cases fb <;> exact ⟨rfl, rfl⟩
